import Mathlib

/-!
Verification of the WorldWeaver repository's session-orchestration spec
against the source code (`src/tools/voice_agent/agent.py` and
`src/tools/blender/generate_world.py`), via a shallow embedding.

Part 1: the `on_data_received` handler of `agent.py` (lines 59-75).
The handler decodes a data packet as JSON; a dict payload whose `"type"`
field equals the string `"visual_context"` causes a system message with
the interpolated `"content"` value to be appended to the assistant's
chat context (guarded by `hasattr(assistant, 'chat_ctx')`); every other
payload leaves the state unchanged; every exception inside the handler
is caught, logged, and dropped.
-/

namespace WW

/-- A Python value as the handler observes it: the handler only compares a
field against a string literal and interpolates a field into an f-string,
so we distinguish strings from every other JSON value (carried by its
`str()` rendering) and Python `None` (the result of `dict.get` on a
missing key). -/
inductive PyVal where
  | vnone : PyVal
  | vstr : String → PyVal
  | vother : String → PyVal
deriving DecidableEq, Repr

/-- `str(v)` as used by the f-string interpolation in the handler. -/
def pyStr : PyVal → String
  | .vnone => "None"
  | .vstr s => s
  | .vother r => r

/-- Result of `json.loads(data.data.decode())` followed by the `.get`
calls: `fail` is any exception on that path (undecodable bytes, invalid
JSON, or a non-dict payload on which `.get` raises); `dict` is a decoded
JSON object with its fields. -/
inductive Decoded where
  | fail : Decoded
  | dict : List (String × PyVal) → Decoded
deriving DecidableEq, Repr

/-- `payload.get(k)`: the field's value, or Python `None` when absent. -/
def getField (fields : List (String × PyVal)) (k : String) : PyVal :=
  match fields.lookup k with
  | some v => v
  | none => .vnone

/-- One entry of the assistant's chat context
(`assistant.chat_ctx.append(role=..., text=...)`). -/
structure ChatMessage where
  role : String
  text : String
deriving DecidableEq, Repr

/-- The state the handler can touch: the assistant's chat context, plus
whether the assistant object has a `chat_ctx` attribute (the
`hasattr` guard in the source). -/
structure AgentState where
  hasChatCtx : Bool
  chat_ctx : List ChatMessage
deriving DecidableEq, Repr

/-- One log line emitted by the handler. -/
inductive LogEntry where
  | info : String → LogEntry
  | error : String → LogEntry
deriving DecidableEq, Repr

/-- The system message the handler appends for a visual-context payload
(text from the f-string at `agent.py` lines 71-72). -/
def contextMessage (content : PyVal) : ChatMessage :=
  { role := "system"
    text := "The current visual context (what the user sees) is: " ++ pyStr content ++
            ". Use this information to better understand the user's request." }

/-- The `on_data_received` handler (`agent.py` lines 59-75): returns the
updated state and the log lines produced. A decode failure is caught by
the `except Exception` branch and logged; a dict payload is processed
iff its `"type"` field is the string `"visual_context"`. -/
def on_data_received (st : AgentState) (d : Decoded) : AgentState × List LogEntry :=
  match d with
  | .fail => (st, [.error "Error processing data packet"])
  | .dict fields =>
    if getField fields "type" = .vstr "visual_context" then
      let content := getField fields "content"
      let log := LogEntry.info ("Received visual context: " ++ pyStr content)
      if st.hasChatCtx then
        ({ st with chat_ctx := st.chat_ctx ++ [contextMessage content] }, [log])
      else (st, [log])
    else (st, [])

/-- Processing a sequence of inbound data packets in arrival order. -/
def processPackets (st : AgentState) (ds : List Decoded) : AgentState :=
  ds.foldl (fun s d => (on_data_received s d).1) st

/-- The chat-context entry a single packet contributes, if any: a dict
payload typed `"visual_context"` contributes one appended system message. -/
def visualEntry (d : Decoded) : Option ChatMessage :=
  match d with
  | .fail => none
  | .dict fields =>
    if getField fields "type" = .vstr "visual_context" then
      some (contextMessage (getField fields "content"))
    else none

/-- A concrete visual-context packet with the given content string. -/
def visualPacket (content : String) : Decoded :=
  .dict [("type", .vstr "visual_context"), ("content", .vstr content)]

/-- An initial agent state with an empty chat context. -/
def st0 : AgentState := { hasChatCtx := true, chat_ctx := [] }

/-!
Part 2: the `main` coroutine of `agent.py` (lines 17-101), embedded as a
trace-producing function of an environment that fixes the credential
values and the behaviour of each awaited external call.  The keep-alive
loop (`while room.connection_state == rtc.ConnectionState.CONN_CONNECTED`)
is parametrised by the number of checks that still see the connection in
the CONNECTED state; the embedding covers every run in which the
connection eventually leaves that state (a run that never disconnects
never returns from `main`).
-/

/-- One observable action of `main`, in program order.  Each `logger`
call is its own constructor carrying only its dynamic part; the other
constructors are the external calls `main` performs: token generation
(lines 31-37), `rtc.Room()` (line 40), `room.connect` (line 44),
construction of `voice.Agent` (lines 48-55) and `voice.AgentSession`
(line 57), `session.start` (line 87), `session.say` (line 90),
`asyncio.sleep(1)` (line 95) and `room.disconnect()` (line 100). -/
inductive Ev where
  | logMissingCreds : Ev
  | logStarting : Ev
  | genToken : Ev
  | newRoom : Ev
  | logConnecting : String → Ev
  | connect : Ev
  | logConnected : String → Ev
  | buildAssistant : Ev
  | buildSession : Ev
  | logStartingSession : Ev
  | startSession : Ev
  | greet : String → Ev
  | logLive : Ev
  | sleep : Ev
  | logError : String → Ev
  | disconnect : Ev
  | logDisconnected : Ev
deriving DecidableEq, Repr

/-- The environment of one run of `main`: the three credential values
after `load_dotenv`, the exception text (if any) raised by each awaited
call inside the `try` block, the room name reported after connecting,
and the number of keep-alive checks that still see the connection
CONNECTED before it drops. -/
structure Env where
  url : Option String
  api_key : Option String
  api_secret : Option String
  connectErr : Option String
  setupErr : Option String
  startErr : Option String
  sayErr : Option String
  roomName : String
  loopIters : Nat
deriving DecidableEq, Repr

/-- Python truthiness of an `os.getenv` result, as tested by
`not all([url, api_key, api_secret])`: `None` and the empty string are
falsy. -/
def truthy : Option String → Bool
  | none => false
  | some s => !s.isEmpty

/-- The credential check at `agent.py` line 24. -/
def credsOk (e : Env) : Bool :=
  truthy e.url && truthy e.api_key && truthy e.api_secret

/-- The scripted greeting passed to `session.say` at line 90. -/
def greetingText : String := "World Weaver agent connected. How can I help you?"

/-- The first exception raised inside the `try` block, in program order
(connect, then session setup, then `session.start`, then `session.say`);
`none` when the run reaches the keep-alive loop. -/
def firstErr (e : Env) : Option String :=
  e.connectErr <|> e.setupErr <|> e.startErr <|> e.sayErr

/-- The trace of the `try` block body (lines 44-95): each awaited call
either succeeds and execution continues, or raises, in which case the
`except Exception` handler (lines 97-98) logs the error and control
moves to the `finally` block.  Handler registrations (lines 59-83) are
pure attachments with no observable action of their own. -/
def tryBody (e : Env) : List Ev :=
  .connect ::
  match e.connectErr with
  | some err => [.logError ("Error: " ++ err)]
  | none =>
    .logConnected e.roomName ::
    .buildAssistant ::
    match e.setupErr with
    | some err => [.logError ("Error: " ++ err)]
    | none =>
      .buildSession ::
      .logStartingSession ::
      .startSession ::
      match e.startErr with
      | some err => [.logError ("Error: " ++ err)]
      | none =>
        match e.sayErr with
        | some err => [.logError ("Error: " ++ err)]
        | none =>
          .greet greetingText ::
          .logLive ::
          List.replicate e.loopIters .sleep

/-- The trace of one run of `main` (lines 17-101): the credential check
returns early before any token or connection work; otherwise the `try`
body runs and the `finally` block disconnects the room unconditionally. -/
def mainRun (e : Env) : List Ev :=
  if credsOk e then
    .logStarting :: .genToken :: .newRoom :: .logConnecting (e.url.getD "") ::
      (tryBody e ++ [.disconnect, .logDisconnected])
  else [.logMissingCreds]

/-- An environment in which every external call succeeds and the
connection drops after one keep-alive sleep. -/
def envOk : Env :=
  { url := some "wss://example.livekit.cloud", api_key := some "key",
    api_secret := some "secret", connectErr := none, setupErr := none,
    startErr := none, sayErr := none, roomName := "worldweaver-room",
    loopIters := 1 }

/-- An environment identical to `envOk` except that the synthesis call
`session.say` raises a transient provider error. -/
def envSayFails : Env := { envOk with sayErr := some "ProviderError: rate limited" }

/-!
Part 3: the Turn Controller state machine.  The repository contains no
turn-management code under `src/` — `agent.py` delegates turn handling to
an external agents library — so the state machine is modelled from the
spec (§4.3) and the barge-in claim is settled against that model.
-/

/-- Non-terminal states of an in-flight Turn (spec §4.3); the controller
is Idle exactly when no Turn is in flight. -/
inductive ActiveState where
  | Listening : ActiveState
  | Thinking : ActiveState
  | Speaking : ActiveState
deriving DecidableEq, Repr

/-- Terminal dispositions under which a Turn is archived (spec §4.3). -/
inductive Disposition where
  | Completed : Disposition
  | Interrupted : Disposition
  | Failed : Disposition
deriving DecidableEq, Repr

/-- Modelled from the spec: the Turn Controller of §4.3, which is absent
from `src/`.  `current` is the in-flight Turn (its monotonic id and
non-terminal state) or `none` when Idle; `nextId` is the next fresh Turn
id; `archived` records Turns that reached a terminal state; `emitted`
records every output chunk emitted to the user, tagged with the id of the
Turn it belongs to. -/
structure TurnController where
  current : Option (Nat × ActiveState)
  nextId : Nat
  archived : List (Nat × Disposition)
  emitted : List (Nat × String)
deriving DecidableEq, Repr

/-- Events driving the Turn Controller (spec §4.3): new speech activity
for a different prospective Turn, a final transcript fragment, a reply
chunk tagged with the id of the Turn whose reply-generation call produced
it, synthesis completion, and an unrecoverable stage error. -/
inductive TCEvent where
  | speechStart : TCEvent
  | finalTranscript : TCEvent
  | replyChunk : Nat → String → TCEvent
  | synthDone : TCEvent
  | stageFailure : TCEvent
deriving DecidableEq, Repr

/-- Modelled from the spec: one transition of the Turn Controller (§4.3).
`speechStart` in Idle creates a fresh Listening Turn; `speechStart` while
a Turn is in flight is a barge-in — the in-flight Turn is archived as
Interrupted (its stage calls cancelled) and the new speech is promoted to
Listening under a fresh id.  A reply chunk is emitted only when its tag
matches the in-flight Turn's id in Thinking or Speaking; chunks tagged
with any other (e.g. cancelled) Turn are discarded. -/
def tcStep (s : TurnController) (ev : TCEvent) : TurnController :=
  match ev with
  | .speechStart =>
    match s.current with
    | none =>
      { s with current := some (s.nextId, .Listening), nextId := s.nextId + 1 }
    | some (i, _) =>
      { s with current := some (s.nextId, .Listening), nextId := s.nextId + 1,
               archived := (i, .Interrupted) :: s.archived }
  | .finalTranscript =>
    match s.current with
    | some (i, .Listening) => { s with current := some (i, .Thinking) }
    | _ => s
  | .replyChunk id txt =>
    match s.current with
    | some (i, .Thinking) =>
      if id = i then
        { s with current := some (i, .Speaking), emitted := s.emitted ++ [(i, txt)] }
      else s
    | some (i, .Speaking) =>
      if id = i then { s with emitted := s.emitted ++ [(i, txt)] } else s
    | _ => s
  | .synthDone =>
    match s.current with
    | some (i, .Speaking) =>
      { s with current := none, archived := (i, .Completed) :: s.archived }
    | _ => s
  | .stageFailure =>
    match s.current with
    | some (i, _) => { s with current := none, archived := (i, .Failed) :: s.archived }
    | _ => s

/-- Running the Turn Controller over a sequence of events. -/
def tcRun (s : TurnController) (evs : List TCEvent) : TurnController :=
  evs.foldl tcStep s

/-- A Turn id is retired in a controller state: it is below the fresh-id
counter and is not the in-flight Turn's id.  Retired ids stay retired and
never emit again. -/
def retired (i : Nat) (s : TurnController) : Prop :=
  i < s.nextId ∧ ∀ p : Nat × ActiveState, s.current = some p → p.1 ≠ i

/-!
Part 4: `parse_args` of `src/tools/blender/generate_world.py`
(lines 78-89): an argparse parser with two options, run on the slice of
`sys.argv` after the first `"--"` token (or on the empty list when no
`"--"` is present).
-/

/-- The two CLI options of `generate_world.py` with their defaults
(lines 80-81). -/
structure Args where
  prompt : String
  output : String
deriving DecidableEq, Repr

/-- The argparse defaults: `--prompt` and `--output` (lines 80-81). -/
def defaultArgs : Args :=
  { prompt := "Default WorldWeaver prompt", output := "/tmp/worldweaver_generated.glb" }

/-- The argparse parse over the two registered options: each option takes
its value as the following token or inline after `=`; any other token is
an argparse error (`none`), and a missing value is an error. -/
def parseOpts : List String → Args → Option Args
  | [], acc => some acc
  | a :: rest, acc =>
    if a = "--prompt" then
      match rest with
      | v :: rest2 => parseOpts rest2 { acc with prompt := v }
      | [] => none
    else if a = "--output" then
      match rest with
      | v :: rest2 => parseOpts rest2 { acc with output := v }
      | [] => none
    else if "--prompt=".isPrefixOf a then parseOpts rest { acc with prompt := a.drop 9 }
    else if "--output=".isPrefixOf a then parseOpts rest { acc with output := a.drop 9 }
    else none

/-- The `sys.argv` slice taken by `parse_args` (lines 83-87): everything
after the first `"--"` token, or the empty list when there is none. -/
def argvTail : List String → List String
  | [] => []
  | a :: rest => if a = "--" then rest else argvTail rest

/-- `parse_args` (lines 78-89): parse the post-`"--"` slice of `argv`
against the two options and their defaults. -/
def parse_args (argv : List String) : Option Args :=
  parseOpts (argvTail argv) defaultArgs

theorem on_data_received_hasChatCtx (st : AgentState) (d : Decoded) :
    (on_data_received st d).1.hasChatCtx = st.hasChatCtx := by
  cases d with
  | fail => rfl
  | dict fields =>
    simp only [on_data_received]
    by_cases h : getField fields "type" = .vstr "visual_context" <;>
      by_cases h2 : st.hasChatCtx <;> simp [h, h2]

theorem on_data_received_chat_ctx (st : AgentState) (d : Decoded)
    (h : st.hasChatCtx = true) :
    (on_data_received st d).1.chat_ctx = st.chat_ctx ++ (visualEntry d).toList := by
  cases d with
  | fail => simp [on_data_received, visualEntry]
  | dict fields =>
    simp only [on_data_received, visualEntry]
    by_cases ht : getField fields "type" = .vstr "visual_context" <;> simp [ht, h]

theorem processPackets_chat_ctx (ds : List WW.Decoded) (st : WW.AgentState)
    (h : st.hasChatCtx = true) :
    (WW.processPackets st ds).chat_ctx = st.chat_ctx ++ ds.filterMap WW.visualEntry := by
  induction ds generalizing st with
  | nil => simp [WW.processPackets]
  | cons d ds ih =>
    have hpres := WW.on_data_received_hasChatCtx st d
    rw [h] at hpres
    have hstep := WW.on_data_received_chat_ctx st d h
    show (WW.processPackets (WW.on_data_received st d).1 ds).chat_ctx = _
    rw [ih _ hpres, hstep]
    cases hv : WW.visualEntry d <;> simp [hv, List.filterMap_cons]

/-- C1: the claim states that the chat context merged into a request holds
exactly one current fact per kind, equal to the most recent
`visual_context` payload (last-write-wins).  On the code this is false:
`on_data_received` appends a fresh system message per update, so after two
updates (contents "A" then "B") the chat context holds both messages, not
just the one for "B". -/
theorem c1_counterexample :
    (WW.processPackets WW.st0 [WW.visualPacket "A", WW.visualPacket "B"]).chat_ctx =
      [WW.contextMessage (.vstr "A"), WW.contextMessage (.vstr "B")] ∧
    (WW.processPackets WW.st0 [WW.visualPacket "A", WW.visualPacket "B"]).chat_ctx ≠
      [WW.contextMessage (.vstr "B")] := by
  constructor
  · rfl
  · intro h
    have := congrArg List.length h
    simp [WW.processPackets, WW.on_data_received, WW.st0, WW.visualPacket,
      WW.getField] at this

/-- C1 (amended): context updates of kind `visual_context` accumulate
rather than overwrite: the chat context at request-composition time equals
the initial context followed by one appended system message per
`visual_context` update received before that instant, in arrival order
(so the most recent update's message is last, but earlier ones persist). -/
theorem c1_amended (st : WW.AgentState) (ds : List WW.Decoded)
    (h : st.hasChatCtx = true) :
    (WW.processPackets st ds).chat_ctx = st.chat_ctx ++ ds.filterMap WW.visualEntry :=
  processPackets_chat_ctx ds st h

theorem c1_amended_witness :
    (WW.processPackets WW.st0 [WW.visualPacket "A", WW.visualPacket "B"]).chat_ctx =
      WW.st0.chat_ctx ++
        ([WW.visualPacket "A", WW.visualPacket "B"].filterMap WW.visualEntry) :=
  c1_amended WW.st0 [WW.visualPacket "A", WW.visualPacket "B"] rfl

/-- C5: the handler recognizes exactly the payload shape
`{type: "visual_context", content: <text>}`: a dict payload whose
`"type"` field is the string `"visual_context"` causes exactly one fact
(the interpolated content, as a system message) to be appended to the
context, and a dict payload with any other `"type"` value causes no state
change and no log output at all. -/
theorem c5_payload_shape (st : WW.AgentState) (fields : List (String × WW.PyVal))
    (h : st.hasChatCtx = true) :
    (WW.getField fields "type" = .vstr "visual_context" →
      WW.on_data_received st (.dict fields) =
        ({ st with chat_ctx := st.chat_ctx ++
            [WW.contextMessage (WW.getField fields "content")] },
         [.info ("Received visual context: " ++ WW.pyStr (WW.getField fields "content"))])) ∧
    (WW.getField fields "type" ≠ .vstr "visual_context" →
      WW.on_data_received st (.dict fields) = (st, [])) := by
  constructor
  · intro ht
    simp [WW.on_data_received, ht, h]
  · intro ht
    simp [WW.on_data_received, ht]

theorem c5_payload_shape_witness :
    WW.on_data_received WW.st0 (WW.visualPacket "a cathedral") =
      ({ WW.st0 with chat_ctx := WW.st0.chat_ctx ++
          [WW.contextMessage (WW.getField [("type", .vstr "visual_context"),
            ("content", .vstr "a cathedral")] "content")] },
       [.info ("Received visual context: " ++ WW.pyStr (WW.getField
          [("type", .vstr "visual_context"), ("content", .vstr "a cathedral")] "content"))]) ∧
    WW.on_data_received WW.st0 (.dict [("type", .vstr "scene_update")]) = (WW.st0, []) :=
  ⟨(c5_payload_shape WW.st0 _ rfl).1 (by decide),
   (c5_payload_shape WW.st0 _ rfl).2 (by decide)⟩

/-- C6: a malformed side-channel payload (bytes that fail to decode or
parse as a JSON dict, modelled by `Decoded.fail`, or a dict without the
expected `"type"` field) never escapes the handler: the broad
`except Exception` branch logs the error and drops the payload, and the
agent state is left unchanged in every such case. -/
theorem c6_malformed_dropped (st : WW.AgentState) :
    (WW.on_data_received st .fail).1 = st ∧
    (WW.on_data_received st .fail).2 = [.error "Error processing data packet"] ∧
    (∀ fields : List (String × WW.PyVal), fields.lookup "type" = none →
      WW.on_data_received st (.dict fields) = (st, [])) := by
  refine ⟨rfl, rfl, ?_⟩
  intro fields hf
  simp [WW.on_data_received, WW.getField, hf]

theorem c6_malformed_dropped_witness :
    (WW.on_data_received WW.st0 .fail).1 = WW.st0 ∧
    WW.on_data_received WW.st0 (.dict [("content", .vstr "x")]) = (WW.st0, []) :=
  ⟨(c6_malformed_dropped WW.st0).1,
   (c6_malformed_dropped WW.st0).2.2 [("content", .vstr "x")] (by decide)⟩

theorem disconnect_not_mem_tryBody (e : WW.Env) : WW.Ev.disconnect ∉ WW.tryBody e := by
  simp only [WW.tryBody]
  cases e.connectErr <;> cases e.setupErr <;> cases e.startErr <;> cases e.sayErr <;>
    simp [List.mem_replicate]

theorem tryBody_firstErr (e : WW.Env) (err : String)
    (herr : WW.firstErr e = some err) :
    ∃ pre, WW.tryBody e = pre ++ [.logError ("Error: " ++ err)] ∧
      WW.Ev.logLive ∉ pre := by
  rcases hc : e.connectErr with _ | ec
  · rcases hs : e.setupErr with _ | es
    · rcases hst : e.startErr with _ | est
      · rcases hsay : e.sayErr with _ | esay
        · simp [WW.firstErr, hc, hs, hst, hsay] at herr
        · have hee : esay = err := by
            simpa [WW.firstErr, hc, hs, hst, hsay] using herr
          subst hee
          exact ⟨[.connect, .logConnected e.roomName, .buildAssistant, .buildSession,
            .logStartingSession, .startSession],
            by simp [WW.tryBody, hc, hs, hst, hsay], by simp⟩
      · have hee : est = err := by
          simpa [WW.firstErr, hc, hs, hst] using herr
        subst hee
        exact ⟨[.connect, .logConnected e.roomName, .buildAssistant, .buildSession,
          .logStartingSession, .startSession],
          by simp [WW.tryBody, hc, hs, hst], by simp⟩
    · have hee : es = err := by
        simpa [WW.firstErr, hc, hs] using herr
      subst hee
      exact ⟨[.connect, .logConnected e.roomName, .buildAssistant],
        by simp [WW.tryBody, hc, hs], by simp⟩
  · have hee : ec = err := by
      simpa [WW.firstErr, hc] using herr
    subst hee
    exact ⟨[.connect], by simp [WW.tryBody, hc], by simp⟩

/-- C2: the claim states that an error raised during a pipeline stage call
is contained to the owning Turn (the Turn is marked Failed, the Session
stays alive and accepts the next Turn), and that only an AuthError or
exhausted TransportError retries terminate the Session.  False on the
code: in `envSayFails` the synthesis call `session.say` raises a
transient provider error — neither an AuthError nor a TransportError —
and the session is torn down at once: the serving keep-alive state is
never reached and the room is disconnected. -/
theorem c2_counterexample :
    WW.mainRun WW.envSayFails =
      [.logStarting, .genToken, .newRoom, .logConnecting "wss://example.livekit.cloud",
       .connect, .logConnected "worldweaver-room", .buildAssistant, .buildSession,
       .logStartingSession, .startSession,
       .logError "Error: ProviderError: rate limited",
       .disconnect, .logDisconnected] ∧
    WW.Ev.logLive ∉ WW.mainRun WW.envSayFails ∧
    WW.Ev.disconnect ∈ WW.mainRun WW.envSayFails := by
  refine ⟨?_, ?_, ?_⟩ <;> decide

/-- C2 (amended): the first exception raised by an awaited call inside
`main`'s try block — the connect, the session setup, `session.start`, or
the greeting `session.say` — terminates the Session regardless of its
kind: the error is logged and the room is disconnected immediately, and
the serving (keep-alive) state is never entered.  The code has no
Turn-level containment and no retry. -/
theorem c2_amended (e : WW.Env) (err : String) (h : WW.credsOk e = true)
    (herr : WW.firstErr e = some err) :
    (∃ pre, WW.mainRun e =
      pre ++ [.logError ("Error: " ++ err), .disconnect, .logDisconnected]) ∧
    WW.Ev.logLive ∉ WW.mainRun e := by
  obtain ⟨pre, hpre, hnl⟩ := tryBody_firstErr e err herr
  constructor
  · refine ⟨.logStarting :: .genToken :: .newRoom ::
      .logConnecting (e.url.getD "") :: pre, ?_⟩
    simp [WW.mainRun, h, hpre]
  · simp [WW.mainRun, h, hpre, hnl]

theorem c2_amended_witness :
    (∃ pre, WW.mainRun WW.envSayFails =
      pre ++ [.logError ("Error: " ++ "ProviderError: rate limited"),
        .disconnect, .logDisconnected]) ∧
    WW.Ev.logLive ∉ WW.mainRun WW.envSayFails :=
  c2_amended WW.envSayFails "ProviderError: rate limited" (by decide) (by decide)

/-- C3: the claim states that on an unexpected transport disconnect the
session attempts reconnection with bounded retries and backoff, resets
the Turn Controller to Idle, and reaches the closed state only when the
retries are exhausted.  False on the code: in `envOk` the connection
drops after one keep-alive check, and the full trace shows exactly one
connect in the whole run, with the room disconnected immediately after
the drop — not a single reconnection attempt precedes the terminal
close. -/
theorem c3_counterexample :
    WW.mainRun WW.envOk =
      [.logStarting, .genToken, .newRoom, .logConnecting "wss://example.livekit.cloud",
       .connect, .logConnected "worldweaver-room", .buildAssistant, .buildSession,
       .logStartingSession, .startSession, .greet WW.greetingText, .logLive, .sleep,
       .disconnect, .logDisconnected] ∧
    (WW.mainRun WW.envOk).count .connect = 1 := by
  refine ⟨?_, ?_⟩ <;> decide

/-- C3 (amended): on an unexpected disconnect — the connection state
leaving CONNECTED after any number of keep-alive checks — the loop in
`main` exits and the room is disconnected immediately: `connect` occurs
exactly once in the whole run, so no reconnection is ever attempted, and
the session goes straight to its terminal closed state. -/
theorem c3_amended (e : WW.Env) (h : WW.credsOk e = true)
    (h1 : e.connectErr = none) (h2 : e.setupErr = none)
    (h3 : e.startErr = none) (h4 : e.sayErr = none) :
    WW.mainRun e =
      [.logStarting, .genToken, .newRoom, .logConnecting (e.url.getD ""),
       .connect, .logConnected e.roomName, .buildAssistant, .buildSession,
       .logStartingSession, .startSession, .greet WW.greetingText, .logLive] ++
      List.replicate e.loopIters .sleep ++ [.disconnect, .logDisconnected] ∧
    (WW.mainRun e).count .connect = 1 := by
  have hm : WW.mainRun e =
      [.logStarting, .genToken, .newRoom, .logConnecting (e.url.getD ""),
       .connect, .logConnected e.roomName, .buildAssistant, .buildSession,
       .logStartingSession, .startSession, .greet WW.greetingText, .logLive] ++
      List.replicate e.loopIters .sleep ++ [.disconnect, .logDisconnected] := by
    simp [WW.mainRun, WW.tryBody, h, h1, h2, h3, h4]
  refine ⟨hm, ?_⟩
  rw [hm]
  simp [List.count_append, List.count_cons, List.count_replicate, List.count_nil]

theorem c3_amended_witness :
    WW.mainRun WW.envOk =
      [.logStarting, .genToken, .newRoom, .logConnecting (WW.envOk.url.getD ""),
       .connect, .logConnected WW.envOk.roomName, .buildAssistant, .buildSession,
       .logStartingSession, .startSession, .greet WW.greetingText, .logLive] ++
      List.replicate WW.envOk.loopIters .sleep ++ [.disconnect, .logDisconnected] ∧
    (WW.mainRun WW.envOk).count .connect = 1 :=
  c3_amended WW.envOk (by decide) rfl rfl rfl rfl

/-- C7: on every successful session start (credentials present, connect,
setup, start and greeting call all succeed), the scripted greeting is
emitted exactly once, at the position immediately after `session.start`
returns — no other greeting occurs anywhere in the run, and nothing is
interposed between session start and the greeting (there is no suspension
point between the two calls, so no inbound processing can interleave). -/
theorem c7_greeting_once (e : WW.Env) (h : WW.credsOk e = true)
    (h1 : e.connectErr = none) (h2 : e.setupErr = none)
    (h3 : e.startErr = none) (h4 : e.sayErr = none) :
    ∃ pre post, WW.mainRun e =
      pre ++ WW.Ev.startSession :: WW.Ev.greet WW.greetingText :: post ∧
      (∀ t, WW.Ev.greet t ∉ pre) ∧ (∀ t, WW.Ev.greet t ∉ post) := by
  refine ⟨[.logStarting, .genToken, .newRoom, .logConnecting (e.url.getD ""),
    .connect, .logConnected e.roomName, .buildAssistant, .buildSession,
    .logStartingSession],
    WW.Ev.logLive :: (List.replicate e.loopIters .sleep ++ [.disconnect, .logDisconnected]),
    ?_, ?_, ?_⟩
  · simp [WW.mainRun, WW.tryBody, h, h1, h2, h3, h4]
  · intro t; simp
  · intro t; simp [List.mem_replicate]

theorem c7_greeting_once_witness :
    ∃ pre post, WW.mainRun WW.envOk =
      pre ++ WW.Ev.startSession :: WW.Ev.greet WW.greetingText :: post ∧
      (∀ t, WW.Ev.greet t ∉ pre) ∧ (∀ t, WW.Ev.greet t ∉ post) :=
  c7_greeting_once WW.envOk (by decide) rfl rfl rfl rfl

/-- C8: when at least one of the three LiveKit credential variables is
unset, `main` logs the missing-credentials error and returns at once: no
token is generated, no connection is attempted, and `disconnect` is never
called. -/
theorem c8_missing_credentials (e : WW.Env)
    (h : e.url = none ∨ e.api_key = none ∨ e.api_secret = none) :
    WW.mainRun e = [.logMissingCreds] ∧
    WW.Ev.genToken ∉ WW.mainRun e ∧
    WW.Ev.connect ∉ WW.mainRun e ∧
    WW.Ev.disconnect ∉ WW.mainRun e := by
  have hc : WW.credsOk e = false := by
    rcases h with h | h | h <;> simp [WW.credsOk, WW.truthy, h]
  have hm : WW.mainRun e = [.logMissingCreds] := by simp [WW.mainRun, hc]
  refine ⟨hm, ?_, ?_, ?_⟩ <;> rw [hm] <;> simp

theorem c8_missing_credentials_witness :
    WW.mainRun { WW.envOk with api_key := none } = [.logMissingCreds] ∧
    WW.Ev.genToken ∉ WW.mainRun { WW.envOk with api_key := none } ∧
    WW.Ev.connect ∉ WW.mainRun { WW.envOk with api_key := none } ∧
    WW.Ev.disconnect ∉ WW.mainRun { WW.envOk with api_key := none } :=
  c8_missing_credentials { WW.envOk with api_key := none } (Or.inr (Or.inl rfl))

/-- C9: every run of `main` that passes the credential check calls
`room.disconnect()` exactly once, as the last action before the final log
line and return — on the normal path (the keep-alive loop exits because
the connection state leaves CONNECTED) and on every exceptional path (an
exception from the connect, the session setup, `session.start`,
`session.say`, caught by the except branch), because the call sits in the
`finally` block. -/
theorem c9_disconnect_exactly_once (e : WW.Env) (h : WW.credsOk e = true) :
    (WW.mainRun e).count .disconnect = 1 ∧
    ∃ pre, WW.mainRun e = pre ++ [.disconnect, .logDisconnected] := by
  have hm : WW.mainRun e =
      (WW.Ev.logStarting :: .genToken :: .newRoom :: .logConnecting (e.url.getD "") ::
        WW.tryBody e) ++ [.disconnect, .logDisconnected] := by
    simp [WW.mainRun, h]
  constructor
  · rw [hm, List.count_append]
    have h0 : (WW.Ev.logStarting :: .genToken :: .newRoom ::
        .logConnecting (e.url.getD "") :: WW.tryBody e).count .disconnect = 0 := by
      rw [List.count_eq_zero]
      simp [disconnect_not_mem_tryBody e]
    rw [h0]
    rfl
  · exact ⟨_, hm⟩

theorem c9_disconnect_exactly_once_witness :
    (WW.mainRun WW.envOk).count .disconnect = 1 ∧
    ∃ pre, WW.mainRun WW.envOk = pre ++ [.disconnect, .logDisconnected] :=
  c9_disconnect_exactly_once WW.envOk (by decide)

theorem tcStep_nextId_le (s : WW.TurnController) (ev : WW.TCEvent) :
    s.nextId ≤ (WW.tcStep s ev).nextId := by
  cases ev with
  | speechStart => cases hc : s.current <;> simp [WW.tcStep, hc]
  | finalTranscript =>
    cases hc : s.current with
    | none => simp [WW.tcStep, hc]
    | some p =>
      obtain ⟨j, a⟩ := p
      cases a <;> simp [WW.tcStep, hc]
  | replyChunk id txt =>
    cases hc : s.current with
    | none => simp [WW.tcStep, hc]
    | some p =>
      obtain ⟨j, a⟩ := p
      cases a <;> by_cases hid : id = j <;> simp [WW.tcStep, hc, hid]
  | synthDone =>
    cases hc : s.current with
    | none => simp [WW.tcStep, hc]
    | some p =>
      obtain ⟨j, a⟩ := p
      cases a <;> simp [WW.tcStep, hc]
  | stageFailure => cases hc : s.current <;> simp [WW.tcStep, hc]

theorem tcStep_current_src (s : WW.TurnController) (ev : WW.TCEvent)
    (p : Nat × WW.ActiveState) (hp : (WW.tcStep s ev).current = some p) :
    p.1 = s.nextId ∨ ∃ q, s.current = some q ∧ p.1 = q.1 := by
  cases ev with
  | speechStart =>
    cases hc : s.current <;> simp [WW.tcStep, hc] at hp <;>
      exact Or.inl (by rw [← hp])
  | finalTranscript =>
    cases hc : s.current with
    | none => rw [WW.tcStep] at hp; simp [hc] at hp
    | some q =>
      obtain ⟨j, a⟩ := q
      cases a with
      | Listening =>
        simp [WW.tcStep, hc] at hp
        exact Or.inr ⟨(j, .Listening), rfl, by rw [← hp]⟩
      | Thinking =>
        simp [WW.tcStep, hc] at hp
        exact Or.inr ⟨(j, .Thinking), rfl, by rw [← hp]⟩
      | Speaking =>
        simp [WW.tcStep, hc] at hp
        exact Or.inr ⟨(j, .Speaking), rfl, by rw [← hp]⟩
  | replyChunk id txt =>
    cases hc : s.current with
    | none => rw [WW.tcStep] at hp; simp [hc] at hp
    | some q =>
      obtain ⟨j, a⟩ := q
      cases a with
      | Listening =>
        simp [WW.tcStep, hc] at hp
        exact Or.inr ⟨(j, .Listening), rfl, by rw [← hp]⟩
      | Thinking =>
        by_cases hid : id = j <;> simp [WW.tcStep, hc, hid] at hp <;>
          exact Or.inr ⟨(j, .Thinking), rfl, by rw [← hp]⟩
      | Speaking =>
        by_cases hid : id = j <;> simp [WW.tcStep, hc, hid] at hp <;>
          exact Or.inr ⟨(j, .Speaking), rfl, by rw [← hp]⟩
  | synthDone =>
    cases hc : s.current with
    | none => rw [WW.tcStep] at hp; simp [hc] at hp
    | some q =>
      obtain ⟨j, a⟩ := q
      cases a with
      | Listening =>
        simp [WW.tcStep, hc] at hp
        exact Or.inr ⟨(j, .Listening), rfl, by rw [← hp]⟩
      | Thinking =>
        simp [WW.tcStep, hc] at hp
        exact Or.inr ⟨(j, .Thinking), rfl, by rw [← hp]⟩
      | Speaking => simp [WW.tcStep, hc] at hp
  | stageFailure =>
    cases hc : s.current with
    | none => rw [WW.tcStep] at hp; simp [hc] at hp
    | some q => simp [WW.tcStep, hc] at hp

theorem tcStep_emitted_src (s : WW.TurnController) (ev : WW.TCEvent) :
    (WW.tcStep s ev).emitted = s.emitted ∨
    ∃ q txt, s.current = some q ∧
      (WW.tcStep s ev).emitted = s.emitted ++ [(q.1, txt)] := by
  cases ev with
  | speechStart => exact Or.inl (by cases hc : s.current <;> simp [WW.tcStep, hc])
  | finalTranscript =>
    refine Or.inl ?_
    cases hc : s.current with
    | none => simp [WW.tcStep, hc]
    | some q =>
      obtain ⟨j, a⟩ := q
      cases a <;> simp [WW.tcStep, hc]
  | replyChunk id txt =>
    cases hc : s.current with
    | none => exact Or.inl (by simp [WW.tcStep, hc])
    | some q =>
      obtain ⟨j, a⟩ := q
      cases a with
      | Listening => exact Or.inl (by simp [WW.tcStep, hc])
      | Thinking =>
        by_cases hid : id = j
        · exact Or.inr ⟨(j, .Thinking), txt, rfl, by simp [WW.tcStep, hc, hid]⟩
        · exact Or.inl (by simp [WW.tcStep, hc, hid])
      | Speaking =>
        by_cases hid : id = j
        · exact Or.inr ⟨(j, .Speaking), txt, rfl, by simp [WW.tcStep, hc, hid]⟩
        · exact Or.inl (by simp [WW.tcStep, hc, hid])
  | synthDone =>
    refine Or.inl ?_
    cases hc : s.current with
    | none => simp [WW.tcStep, hc]
    | some q =>
      obtain ⟨j, a⟩ := q
      cases a <;> simp [WW.tcStep, hc]
  | stageFailure => exact Or.inl (by cases hc : s.current <;> simp [WW.tcStep, hc])

theorem retired_tcStep (i : Nat) (s : WW.TurnController) (ev : WW.TCEvent)
    (h : WW.retired i s) : WW.retired i (WW.tcStep s ev) := by
  obtain ⟨hlt, hcur⟩ := h
  refine ⟨lt_of_lt_of_le hlt (tcStep_nextId_le s ev), ?_⟩
  intro p hp
  rcases tcStep_current_src s ev p hp with h1 | ⟨q, hq, h2⟩
  · omega
  · rw [h2]
    exact hcur q hq

theorem emitted_filter_tcStep (i : Nat) (s : WW.TurnController) (ev : WW.TCEvent)
    (h : WW.retired i s) :
    ((WW.tcStep s ev).emitted.filter fun p => p.1 == i) =
      s.emitted.filter fun p => p.1 == i := by
  obtain ⟨hlt, hcur⟩ := h
  rcases tcStep_emitted_src s ev with he | ⟨q, txt, hq, he⟩
  · rw [he]
  · rw [he, List.filter_append]
    have hqi : q.1 ≠ i := hcur q hq
    simp [hqi]

theorem emitted_filter_tcRun (i : Nat) (evs : List WW.TCEvent)
    (s : WW.TurnController) (h : WW.retired i s) :
    ((WW.tcRun s evs).emitted.filter fun p => p.1 == i) =
      s.emitted.filter fun p => p.1 == i := by
  induction evs generalizing s with
  | nil => rfl
  | cons ev evs ih =>
    show ((WW.tcRun (WW.tcStep s ev) evs).emitted.filter fun p => p.1 == i) = _
    rw [ih (WW.tcStep s ev) (retired_tcStep i s ev h)]
    exact emitted_filter_tcStep i s ev h

/-- C4 (spec-modelled, §4.3): when new speech activity for a different
prospective Turn arrives while Turn `i` is in a non-terminal state
(barge-in), the controller archives Turn `i` as Interrupted (its stage
calls cancelled), promotes the new speech to Listening under a fresh
Turn id, and — for every subsequent event sequence, including
late-arriving reply chunks tagged with Turn `i` — never emits another
output chunk of Turn `i`. -/
theorem c4_barge_in (s : WW.TurnController) (i : Nat) (a : WW.ActiveState)
    (hcur : s.current = some (i, a)) (hlt : i < s.nextId) :
    (WW.tcStep s .speechStart).current = some (s.nextId, .Listening) ∧
    (i, WW.Disposition.Interrupted) ∈ (WW.tcStep s .speechStart).archived ∧
    ∀ evs, ((WW.tcRun (WW.tcStep s .speechStart) evs).emitted.filter
        fun p => p.1 == i) =
      (WW.tcStep s .speechStart).emitted.filter fun p => p.1 == i := by
  have hstep : WW.tcStep s .speechStart =
      { s with current := some (s.nextId, .Listening), nextId := s.nextId + 1,
               archived := (i, .Interrupted) :: s.archived } := by
    simp [WW.tcStep, hcur]
  refine ⟨by rw [hstep], by rw [hstep]; exact List.mem_cons_self _ _, ?_⟩
  intro evs
  apply emitted_filter_tcRun
  rw [hstep]
  refine ⟨by show i < s.nextId + 1; omega, ?_⟩
  rintro ⟨k, b⟩ hp
  have hk : s.nextId = k := congrArg Prod.fst (Option.some.inj hp)
  omega

theorem c4_barge_in_witness :
    (WW.tcStep ⟨some (0, .Thinking), 1, [], []⟩ .speechStart).current =
      some ((WW.TurnController.mk (some (0, .Thinking)) 1 [] []).nextId, .Listening) ∧
    (0, WW.Disposition.Interrupted) ∈
      (WW.tcStep ⟨some (0, .Thinking), 1, [], []⟩ .speechStart).archived ∧
    ∀ evs, ((WW.tcRun (WW.tcStep ⟨some (0, .Thinking), 1, [], []⟩ .speechStart)
        evs).emitted.filter fun p => p.1 == 0) =
      (WW.tcStep ⟨some (0, .Thinking), 1, [], []⟩ .speechStart).emitted.filter
        fun p => p.1 == 0 :=
  c4_barge_in ⟨some (0, .Thinking), 1, [], []⟩ 0 .Thinking rfl (by decide)

theorem argvTail_of_not_mem (l : List String) (h : "--" ∉ l) :
    WW.argvTail l = [] := by
  induction l with
  | nil => rfl
  | cons a rest ih =>
    have ha : a ≠ "--" := fun hq => h (hq ▸ List.mem_cons_self a rest)
    have hr : "--" ∉ rest := fun hq => h (List.mem_cons_of_mem a hq)
    simp [WW.argvTail, ha, ih hr]

theorem argvTail_append (l rest : List String) (h : "--" ∉ l) :
    WW.argvTail (l ++ "--" :: rest) = rest := by
  induction l with
  | nil => simp [WW.argvTail]
  | cons a tl ih =>
    have ha : a ≠ "--" := fun hq => h (hq ▸ List.mem_cons_self a tl)
    have ht : "--" ∉ tl := fun hq => h (List.mem_cons_of_mem a hq)
    simp [WW.argvTail, ha, ih ht]

/-- C10: `parse_args` parses only the command-line tokens after the first
`"--"` in `argv`: when `argv` contains no `"--"`, every token is ignored
and the result is exactly the defaults (`prompt = "Default WorldWeaver
prompt"`, `output = "/tmp/worldweaver_generated.glb"`); and for any
`argv` split as `pre ++ "--" :: rest` with no `"--"` in `pre`, the tokens
of `pre` are ignored and exactly `rest` is parsed against the defaults. -/
theorem c10_parse_args (argv pre rest : List String) :
    ("--" ∉ argv →
      WW.parse_args argv =
        some { prompt := "Default WorldWeaver prompt",
               output := "/tmp/worldweaver_generated.glb" }) ∧
    ("--" ∉ pre →
      WW.parse_args (pre ++ "--" :: rest) = WW.parseOpts rest WW.defaultArgs) := by
  constructor
  · intro h
    rw [WW.parse_args, argvTail_of_not_mem argv h]
    rfl
  · intro h
    rw [WW.parse_args, argvTail_append pre rest h]

theorem c10_parse_args_witness :
    WW.parse_args ["blender", "-b", "scene.blend"] =
      some { prompt := "Default WorldWeaver prompt",
             output := "/tmp/worldweaver_generated.glb" } ∧
    WW.parse_args (["blender"] ++ "--" :: ["--prompt", "castle"]) =
      WW.parseOpts ["--prompt", "castle"] WW.defaultArgs :=
  ⟨(c10_parse_args ["blender", "-b", "scene.blend"] [] []).1 (by decide),
   (c10_parse_args [] ["blender"] ["--prompt", "castle"]).2 (by decide)⟩

end WW
